import Mathlib

/-!
Verification of the nntrainer optimizer subsystem sources:
`nntrainer/src/parse_util.cpp` (token resolution) and
`nntrainer/optimizers/optimizer_devel.h` (optimizer interface and plugin
descriptor).  C strings are embedded as `List Char`; the byte-wise
case-insensitive comparison `strncasecmp` is embedded over ASCII codes.
-/

namespace nntrainer

/-- ASCII case folding as applied by `strncasecmp` (C-locale `tolower`):
codes 65–90 (A–Z) map to 97–122 (a–z), every other code is unchanged. -/
def asciiLower (n : Nat) : Nat := if 65 ≤ n ∧ n ≤ 90 then n + 32 else n

/-- Embeds `strncasecmp(e, t, e.size()) == 0` for a nul-free entry `e`:
true exactly when every character of `e` matches the corresponding
character of `t` after ASCII case folding (so `t` must be at least as
long as `e`; a shorter `t` hits its terminating nul and fails). -/
def entryMatches : List Char → List Char → Bool
  | [], _ => true
  | _ :: _, [] => false
  | e :: es, t :: ts => (asciiLower e.toNat == asciiLower t.toNat) && entryMatches es ts

/-- Optimizer strings from `parseType` (`optimizer_string`). -/
def optimizer_string : List (List Char) :=
  ["sgd".toList, "adam".toList, "unknown".toList]

/-- Cost function strings from `parseType` (`cost_string`). -/
def cost_string : List (List Char) :=
  ["msr".toList, "cross".toList, "unknown".toList]

/-- Network type strings from `parseType` (`network_type_string`). -/
def network_type_string : List (List Char) :=
  ["knn".toList, "regression".toList, "neuralnet".toList, "unknown".toList]

/-- Activation type strings from `parseType` (`activation_string`). -/
def activation_string : List (List Char) :=
  ["tanh".toList, "sigmoid".toList, "relu".toList, "softmax".toList, "unknown".toList]

/-- Layer type strings from `parseType` (`layer_string`). -/
def layer_string : List (List Char) :=
  ["input".toList, "fully_connected".toList, "batch_normalization".toList, "unknown".toList]

/-- Weight initialization strings from `parseType` (`weight_ini_string`). -/
def weight_ini_string : List (List Char) :=
  ["lecun_normal".toList, "lecun_uniform".toList, "xavier_normal".toList,
   "xavier_uniform".toList, "he_normal".toList, "he_uniform".toList, "unknown".toList]

/-- Weight decay strings from `parseType` (`weight_decay_string`). -/
def weight_decay_string : List (List Char) :=
  ["l2norm".toList, "regression".toList, "unknown".toList]

/-- Layer property strings from `parseLayerProperty` (`property_string`). -/
def property_string : List (List Char) :=
  ["input_shape".toList, "bias_zero".toList, "normalization".toList,
   "standardization".toList, "activation".toList, "epsilon".toList,
   "weight_decay".toList, "unknown".toList]

/-- Embeds the per-category scan loop of `parseType` / `parseLayerProperty`:
starting at index `i`, return the index of the first entry with
`strncasecmp(entry, ll, entry.size()) == 0`; when the table is exhausted
return `i - 1` (the code's `ret = i - 1` with `i == size()`). -/
def tableLoop : List (List Char) → List Char → Nat → Nat
  | [], _, i => i - 1
  | e :: rest, ll, i => if entryMatches e ll then i else tableLoop rest ll (i + 1)

/-- The token categories of `parseType` (`InputType` in `parse_util.h`);
`TOKEN_UNKNOWN` also stands for the switch's `default:` arm, which shares
its branch in the source. -/
inductive InputType
  | TOKEN_OPT
  | TOKEN_COST
  | TOKEN_NET
  | TOKEN_ACTI
  | TOKEN_LAYER
  | TOKEN_WEIGHTINI
  | TOKEN_WEIGHT_DECAY
  | TOKEN_UNKNOWN
  deriving DecidableEq

/-- Embeds `parseType` from `parse_util.cpp`: dispatch on the category and
scan the corresponding table; `TOKEN_UNKNOWN`/`default` sets `ret = 3`. -/
def parseType (ll : List Char) (t : InputType) : Nat :=
  match t with
  | .TOKEN_OPT => tableLoop optimizer_string ll 0
  | .TOKEN_COST => tableLoop cost_string ll 0
  | .TOKEN_NET => tableLoop network_type_string ll 0
  | .TOKEN_ACTI => tableLoop activation_string ll 0
  | .TOKEN_LAYER => tableLoop layer_string ll 0
  | .TOKEN_WEIGHTINI => tableLoop weight_ini_string ll 0
  | .TOKEN_WEIGHT_DECAY => tableLoop weight_decay_string ll 0
  | .TOKEN_UNKNOWN => 3

/-- Embeds `parseLayerProperty` from `parse_util.cpp`: scan `property_string`. -/
def parseLayerProperty (property : List Char) : Nat :=
  tableLoop property_string property 0

/-- The table that `parseType` scans for each category (`TOKEN_UNKNOWN`
scans none; it maps to the empty table here). -/
def tableOf : InputType → List (List Char)
  | .TOKEN_OPT => optimizer_string
  | .TOKEN_COST => cost_string
  | .TOKEN_NET => network_type_string
  | .TOKEN_ACTI => activation_string
  | .TOKEN_LAYER => layer_string
  | .TOKEN_WEIGHTINI => weight_ini_string
  | .TOKEN_WEIGHT_DECAY => weight_decay_string
  | .TOKEN_UNKNOWN => []

/-- ASCII case folding of a character list, for the spec-side resolver. -/
def foldCase (s : List Char) : List Nat := s.map fun c => asciiLower c.toNat

/-- Resolver contract in the spec's words, to be compared against the
code's `parseType`/`parseLayerProperty`: the index of the first table
entry that is a case-insensitive prefix of the supplied token, and the
reserved unknown index — the last index of the table — when no entry
matches. -/
def specResolve (table : List (List Char)) (token : List Char) : Nat :=
  let j := table.findIdx fun e => List.isPrefixOf (foldCase e) (foldCase token)
  if j < table.length then j else table.length - 1

theorem entryMatches_eq (e t : List Char) :
    entryMatches e t = List.isPrefixOf (foldCase e) (foldCase t) := by
  induction e generalizing t with
  | nil => simp [entryMatches, foldCase, List.isPrefixOf]
  | cons a as ih =>
    cases t with
    | nil => simp [entryMatches, foldCase, List.isPrefixOf]
    | cons b bs => simp [entryMatches, foldCase, List.isPrefixOf, ih bs]

theorem tableLoop_go (table : List (List Char)) (ll : List Char) (i : Nat) :
    tableLoop table ll i =
      if List.findIdx (fun e => entryMatches e ll) table < table.length
      then i + List.findIdx (fun e => entryMatches e ll) table
      else i + table.length - 1 := by
  induction table generalizing i with
  | nil => simp [tableLoop]
  | cons e rest ih =>
    by_cases h : entryMatches e ll
    · simp [tableLoop, h, List.findIdx_cons]
    · rw [tableLoop, if_neg (by simp [h]), ih (i + 1)]
      simp only [List.findIdx_cons, h, cond_false, List.length_cons]
      by_cases hlt : List.findIdx (fun x => entryMatches x ll) rest < rest.length
      · rw [if_pos hlt, if_pos (by omega)]
        omega
      · rw [if_neg hlt, if_neg (by omega)]
        omega

theorem tableLoop_eq_specResolve (table : List (List Char)) (ll : List Char) :
    tableLoop table ll 0 = specResolve table ll := by
  have hfun : (fun e => List.isPrefixOf (foldCase e) (foldCase ll)) =
      fun e => entryMatches e ll := by
    funext e
    rw [entryMatches_eq]
  rw [tableLoop_go, specResolve]
  simp only [hfun, Nat.zero_add]

/-- Comparison of `e` against `k` fails at a position inside `k`: some
aligned pair of characters differs after case folding. -/
def diffWithin : List Char → List Char → Bool
  | [], _ => false
  | _ :: _, [] => false
  | a :: as, b :: bs => (asciiLower a.toNat != asciiLower b.toNat) || diffWithin as bs

theorem entryMatches_append_of_diffWithin (e k : List Char)
    (h : diffWithin e k = true) (s : List Char) :
    entryMatches e (k ++ s) = false := by
  induction e generalizing k with
  | nil => simp [diffWithin] at h
  | cons a as ih =>
    cases k with
    | nil => simp [diffWithin] at h
    | cons b bs =>
      simp only [diffWithin, Bool.or_eq_true, bne_iff_ne, ne_eq] at h
      simp only [List.cons_append, entryMatches, Bool.and_eq_false_iff, beq_eq_false_iff_ne,
        ne_eq]
      rcases h with h | h
      · exact Or.inl h
      · exact Or.inr (ih bs h)

theorem entryMatches_append_self (e s : List Char) : entryMatches e (e ++ s) = true := by
  induction e with
  | nil => simp [entryMatches]
  | cons a as ih => simp [entryMatches, ih]

/-- Every entry of the table differs, within the shorter one, from every
later entry (no entry is a case-folded prefix of another). -/
def pairwiseDiff : List (List Char) → Bool
  | [] => true
  | e :: rest => rest.all (fun k => diffWithin e k) && pairwiseDiff rest

theorem tableLoop_entry_append (table : List (List Char)) (hp : pairwiseDiff table = true)
    (k : Nat) (hk : k < table.length) (s : List Char) (i : Nat) :
    tableLoop table (table.get ⟨k, hk⟩ ++ s) i = i + k := by
  induction table generalizing k i with
  | nil => simp at hk
  | cons e rest ih =>
    simp only [pairwiseDiff, Bool.and_eq_true, List.all_eq_true] at hp
    obtain ⟨hall, hrest⟩ := hp
    cases k with
    | zero => simp [tableLoop, entryMatches_append_self]
    | succ j =>
      have hj : j < rest.length := by simpa using hk
      simp only [List.get_eq_getElem, List.getElem_cons_succ]
      have hdiff : diffWithin e rest[j] = true := hall _ (List.get_mem rest j hj)
      have hloop := ih hrest j hj (i + 1)
      simp only [List.get_eq_getElem] at hloop
      rw [tableLoop, if_neg (by simp [entryMatches_append_of_diffWithin _ _ hdiff]), hloop]
      omega

/-- Result of a configuration lookup as the core consumes it. -/
inductive ConfigResult
  | ok : Nat → ConfigResult
  | configurationError : ConfigResult
  deriving DecidableEq

/-- Modelled from the spec: the callers of `parseLayerProperty` are not under
`src/`; per the spec the core "treats the unknown sentinel as a hard
configuration error, never as a default choice", so a lookup yielding the
unknown index surfaces a ConfigurationError to the caller instead of a
property index. -/
def resolveLayerProperty (tok : List Char) : ConfigResult :=
  let i := parseLayerProperty tok
  if i = property_string.length - 1 then ConfigResult.configurationError
  else ConfigResult.ok i

/-- Modelled from the spec: the registry consuming `parseType` is not under
`src/`; per the spec an unknown algorithm identifier "is a configuration
error surfaced to the caller ... never silently defaulted to a fallback
algorithm". -/
def resolveOptimizerType (tok : List Char) : ConfigResult :=
  let i := parseType tok InputType.TOKEN_OPT
  if i = optimizer_string.length - 1 then ConfigResult.configurationError
  else ConfigResult.ok i

/-- C1: for every input token and every supported lookup category, the token
resolver (`parseType` for the category tables, `parseLayerProperty` for
layer-property keys) returns the index of the first table entry that is a
case-insensitive prefix match against the supplied token, and when no entry
matches it returns the reserved unknown index — the last index of that
category's table — exactly as the spec-side `specResolve` states. -/
theorem parseType_matches_specResolve (ll : List Char) (t : InputType)
    (h : t ≠ InputType.TOKEN_UNKNOWN) :
    parseType ll t = specResolve (tableOf t) ll ∧
    parseLayerProperty ll = specResolve property_string ll := by
  refine ⟨?_, tableLoop_eq_specResolve _ _⟩
  cases t
  case TOKEN_UNKNOWN => exact absurd rfl h
  all_goals exact tableLoop_eq_specResolve _ _

/-- Witness for C1 at the token "adam". -/
theorem parseType_matches_specResolve_witness :
    parseType "adam".toList InputType.TOKEN_OPT = specResolve optimizer_string "adam".toList ∧
    parseLayerProperty "adam".toList = specResolve property_string "adam".toList :=
  parseType_matches_specResolve "adam".toList InputType.TOKEN_OPT (by decide)

/-- C2: a token that matches no real (non-sentinel) entry always resolves to
the unknown sentinel index — never the index of any real entry — and, at the
spec-modelled caller level, always surfaces a ConfigurationError rather than
silently succeeding or falling back to a valid index. -/
theorem unknown_token_always_errors (tokP tokO : List Char)
    (hP : ∀ e ∈ property_string.dropLast, entryMatches e tokP = false)
    (hO : ∀ e ∈ optimizer_string.dropLast, entryMatches e tokO = false) :
    parseLayerProperty tokP = property_string.length - 1 ∧
    resolveLayerProperty tokP = ConfigResult.configurationError ∧
    parseType tokO InputType.TOKEN_OPT = optimizer_string.length - 1 ∧
    resolveOptimizerType tokO = ConfigResult.configurationError := by
  have h0 := hP "input_shape".toList (by decide)
  have h1 := hP "bias_zero".toList (by decide)
  have h2 := hP "normalization".toList (by decide)
  have h3 := hP "standardization".toList (by decide)
  have h4 := hP "activation".toList (by decide)
  have h5 := hP "epsilon".toList (by decide)
  have h6 := hP "weight_decay".toList (by decide)
  have g0 := hO "sgd".toList (by decide)
  have g1 := hO "adam".toList (by decide)
  simp only [String.toList] at h0 h1 h2 h3 h4 h5 h6 g0 g1
  have hPv : parseLayerProperty tokP = 7 := by
    simp [parseLayerProperty, property_string, tableLoop, h0, h1, h2, h3, h4, h5, h6]
  have hOv : parseType tokO InputType.TOKEN_OPT = 2 := by
    simp [parseType, optimizer_string, tableLoop, g0, g1]
  refine ⟨by simpa [property_string] using hPv, ?_,
    by simpa [optimizer_string] using hOv, ?_⟩
  · simp [resolveLayerProperty, hPv, property_string]
  · simp [resolveOptimizerType, hOv, optimizer_string]

/-- Witness for C2 at the unknown property key "not_a_real_key=1" and the
unknown algorithm identifier "made_up_optimizer". -/
theorem unknown_token_always_errors_witness :
    parseLayerProperty "not_a_real_key=1".toList = property_string.length - 1 ∧
    resolveLayerProperty "not_a_real_key=1".toList = ConfigResult.configurationError ∧
    parseType "made_up_optimizer".toList InputType.TOKEN_OPT = optimizer_string.length - 1 ∧
    resolveOptimizerType "made_up_optimizer".toList = ConfigResult.configurationError :=
  unknown_token_always_errors _ _ (by decide) (by decide)

/-- C3 as stated fails on the code: the abbreviated token "sig" under the
activation category resolves to the unknown sentinel (the last index, 4),
not to the index 1 of "sigmoid" — `strncasecmp(entry, token, entry.size())`
requires the table entry to be a prefix of the token, not the reverse. -/
theorem sig_resolves_to_unknown :
    parseType "sig".toList InputType.TOKEN_ACTI = activation_string.length - 1 ∧
    parseType "sig".toList InputType.TOKEN_ACTI ≠ 1 := by decide

/-- C3 amended: the resolver rejects abbreviated tokens — "sig" under the
activation category resolves to the unknown sentinel — while it accepts
extended tokens: any token with the full entry "sigmoid" as a prefix (for
example "sigmoidal") resolves to the index of "sigmoid". -/
theorem resolver_rejects_abbreviation :
    parseType "sig".toList InputType.TOKEN_ACTI = activation_string.length - 1 ∧
    (∀ s : List Char, parseType ("sigmoid".toList ++ s) InputType.TOKEN_ACTI = 1) ∧
    parseType "sigmoidal".toList InputType.TOKEN_ACTI = 1 := by
  refine ⟨by decide, ?_, by decide⟩
  intro s
  exact tableLoop_entry_append activation_string (by decide) 1 (by decide) s 0

/-- C9: `parseType` called with `TOKEN_UNKNOWN` (the arm shared with the
switch's `default:`) returns the constant 3 for every token without
consulting any table; 3 coincides with the unknown index of the four-entry
tables (network type, layer) but differs from the unknown index 2 of the
three-entry tables (optimizer, cost). -/
theorem parseType_unknown_category_constant (ll : List Char) :
    parseType ll InputType.TOKEN_UNKNOWN = 3 ∧
    network_type_string.length - 1 = 3 ∧
    layer_string.length - 1 = 3 ∧
    optimizer_string.length - 1 = 2 ∧
    cost_string.length - 1 = 2 ∧
    (3 : Nat) ≠ 2 :=
  ⟨rfl, by decide, by decide, by decide, by decide, by decide⟩

/-- C10: for every lookup category, any token formed by appending extra
characters to a table entry resolves to that entry's index — for real
entries this is never the unknown sentinel — because matching never checks
that the token ends where the table entry ends. -/
theorem resolver_accepts_any_suffix :
    (∀ k (hk : k < optimizer_string.length) (s : List Char),
      parseType (optimizer_string.get ⟨k, hk⟩ ++ s) InputType.TOKEN_OPT = k) ∧
    (∀ k (hk : k < cost_string.length) (s : List Char),
      parseType (cost_string.get ⟨k, hk⟩ ++ s) InputType.TOKEN_COST = k) ∧
    (∀ k (hk : k < network_type_string.length) (s : List Char),
      parseType (network_type_string.get ⟨k, hk⟩ ++ s) InputType.TOKEN_NET = k) ∧
    (∀ k (hk : k < activation_string.length) (s : List Char),
      parseType (activation_string.get ⟨k, hk⟩ ++ s) InputType.TOKEN_ACTI = k) ∧
    (∀ k (hk : k < layer_string.length) (s : List Char),
      parseType (layer_string.get ⟨k, hk⟩ ++ s) InputType.TOKEN_LAYER = k) ∧
    (∀ k (hk : k < weight_ini_string.length) (s : List Char),
      parseType (weight_ini_string.get ⟨k, hk⟩ ++ s) InputType.TOKEN_WEIGHTINI = k) ∧
    (∀ k (hk : k < weight_decay_string.length) (s : List Char),
      parseType (weight_decay_string.get ⟨k, hk⟩ ++ s) InputType.TOKEN_WEIGHT_DECAY = k) ∧
    (∀ k (hk : k < property_string.length) (s : List Char),
      parseLayerProperty (property_string.get ⟨k, hk⟩ ++ s) = k) := by
  refine ⟨fun k hk s => ?_, fun k hk s => ?_, fun k hk s => ?_, fun k hk s => ?_,
    fun k hk s => ?_, fun k hk s => ?_, fun k hk s => ?_, fun k hk s => ?_⟩
  · simpa [parseType] using tableLoop_entry_append optimizer_string (by decide) k hk s 0
  · simpa [parseType] using tableLoop_entry_append cost_string (by decide) k hk s 0
  · simpa [parseType] using tableLoop_entry_append network_type_string (by decide) k hk s 0
  · simpa [parseType] using tableLoop_entry_append activation_string (by decide) k hk s 0
  · simpa [parseType] using tableLoop_entry_append layer_string (by decide) k hk s 0
  · simpa [parseType] using tableLoop_entry_append weight_ini_string (by decide) k hk s 0
  · simpa [parseType] using tableLoop_entry_append weight_decay_string (by decide) k hk s 0
  · simpa [parseLayerProperty] using tableLoop_entry_append property_string (by decide) k hk s 0

/-- Witness for C10: "adamant" resolves to "adam" and
"input_shape_anything" resolves to "input_shape". -/
theorem resolver_accepts_any_suffix_witness :
    parseType ("adam".toList ++ "ant".toList) InputType.TOKEN_OPT = 1 ∧
    parseLayerProperty ("input_shape".toList ++ "_anything".toList) = 0 :=
  ⟨resolver_accepts_any_suffix.1 1 (by decide) "ant".toList,
   resolver_accepts_any_suffix.2.2.2.2.2.2.2 0 (by decide) "_anything".toList⟩

/-! The optimizer interface (`optimizer_devel.h`).  The base class has no
data members; the state an instance carries is its hyperparameters (set via
`setProperty`) plus algorithm-specific scalar book-keeping (the payload of
`read`/`save`, per the spec an ordered sequence of scalar fields).  That
state is embedded as `OptimizerCkptState`; byte-level stream content is
embedded as `List Nat`. -/

/-- State of one optimizer instance: hyperparameter property tokens and
internal scalar book-keeping. -/
structure OptimizerCkptState where
  props : List String
  scalars : List Nat
  deriving DecidableEq

/-- Opaque exporter collaborator (`Exporter` is forward-declared only). -/
structure Exporter where
  exported : List String
  deriving DecidableEq

/-- Export method selector (`enum class ExportMethods`, forward-declared
only; its members are irrelevant here). -/
inductive ExportMethods
  | someMethod : Nat → ExportMethods
  deriving DecidableEq

/-- Embeds the default `Optimizer::exportTo(exporter, method)`: the body in
`optimizer_devel.h` is empty, so the instance and the exporter come back
unchanged. -/
def Optimizer.exportTo (s : OptimizerCkptState) (exporter : Exporter)
    (method : ExportMethods) : OptimizerCkptState × Exporter :=
  (s, exporter)

/-- Embeds the default `Optimizer::finalize()`: the body in
`optimizer_devel.h` is empty, so the instance comes back unchanged. -/
def Optimizer.finalize (s : OptimizerCkptState) : OptimizerCkptState := s

/-- Modelled from the spec: the body of `Optimizer::save` is not under
`src/`; per the spec it writes the instance's internal scalar book-keeping
to the stream as an ordered sequence of scalar fields. -/
def Optimizer.save (s : OptimizerCkptState) : List Nat := s.scalars

/-- Modelled from the spec: the body of `Optimizer::read` is not under
`src/`; per the spec it restores the internal scalar book-keeping from a
stream produced by `save`, leaving the configured hyperparameters alone. -/
def Optimizer.read (stream : List Nat) (s : OptimizerCkptState) : OptimizerCkptState :=
  { s with scalars := stream }

/-- One run of repeated `applyGradient` calls: `f` is any concrete update
rule (`applyGradient` is pure virtual), mapping the instance state and one
context to the successor state and the mutation applied to the bound
variable; the run returns the sequence of mutations. -/
def runApply (f : OptimizerCkptState → Nat → OptimizerCkptState × Nat) :
    OptimizerCkptState → List Nat → List Nat
  | _, [] => []
  | s, c :: cs =>
    let step := f s c
    step.2 :: runApply f step.1 cs

/-- C6: `save` followed by `read` into a freshly constructed instance
configured with identical properties reproduces the scalar internal state
exactly, and both instances then mutate their bound variables identically
under every later sequence of `applyGradient` contexts, whatever the
(deterministic) update rule `f` is. -/
theorem save_read_roundtrip (s fresh : OptimizerCkptState)
    (f : OptimizerCkptState → Nat → OptimizerCkptState × Nat) (ctxs : List Nat)
    (h : fresh.props = s.props) :
    Optimizer.read (Optimizer.save s) fresh = s ∧
    runApply f (Optimizer.read (Optimizer.save s) fresh) ctxs = runApply f s ctxs := by
  have hrt : Optimizer.read (Optimizer.save s) fresh = s := by
    cases s
    cases fresh
    simp_all [Optimizer.read, Optimizer.save]
  exact ⟨hrt, by rw [hrt]⟩

/-- Witness for C6 at a concrete checkpointed instance, fresh instance,
update rule and context sequence. -/
theorem save_read_roundtrip_witness :
    Optimizer.read (Optimizer.save ⟨["learning_rate=0.1"], [5, 9]⟩)
        ⟨["learning_rate=0.1"], []⟩ = ⟨["learning_rate=0.1"], [5, 9]⟩ ∧
    runApply (fun st c => ({ st with scalars := st.scalars.map (· + c) }, c + 1))
        (Optimizer.read (Optimizer.save ⟨["learning_rate=0.1"], [5, 9]⟩)
          ⟨["learning_rate=0.1"], []⟩) [1, 2] =
      runApply (fun st c => ({ st with scalars := st.scalars.map (· + c) }, c + 1))
        ⟨["learning_rate=0.1"], [5, 9]⟩ [1, 2] :=
  save_read_roundtrip ⟨["learning_rate=0.1"], [5, 9]⟩ ⟨["learning_rate=0.1"], []⟩
    (fun st c => ({ st with scalars := st.scalars.map (· + c) }, c + 1)) [1, 2] rfl

/-- C7: the default implementations of `exportTo` and `finalize` are
no-ops — for every instance state, every field (`props`, `scalars`) of the
instance, and for `exportTo` also the exporter, are unchanged. -/
theorem default_exportTo_finalize_noop (s : OptimizerCkptState) (e : Exporter)
    (m : ExportMethods) :
    (Optimizer.exportTo s e m).1 = s ∧
    (Optimizer.exportTo s e m).2 = e ∧
    (Optimizer.exportTo s e m).1.props = s.props ∧
    (Optimizer.exportTo s e m).1.scalars = s.scalars ∧
    (Optimizer.exportTo s e m).2.exported = e.exported ∧
    Optimizer.finalize s = s :=
  ⟨rfl, rfl, rfl, rfl, rfl, rfl⟩

/-- The C++ scalar types relevant to the interface's declarations. -/
inductive CppType
  | floatT
  | doubleT
  | voidT
  deriving DecidableEq

/-- Signature of a declared method: return type, argument types, and
whether it is `const`-qualified (cannot mutate the instance). -/
structure MethodDecl where
  returnType : CppType
  argTypes : List CppType
  isConst : Bool
  deriving DecidableEq

/-- Embeds the declaration
`virtual double getDefaultLearningRate() const = 0;` from
`optimizer_devel.h`: no arguments, `const`, returning `double`. -/
def getDefaultLearningRate_decl : MethodDecl :=
  { returnType := CppType.doubleT, argTypes := [], isConst := true }

/-- C8 as stated fails on the code: `getDefaultLearningRate` is declared to
return `double` (double precision), not single-precision `float`. -/
theorem getDefaultLearningRate_not_float :
    getDefaultLearningRate_decl.returnType = CppType.doubleT ∧
    getDefaultLearningRate_decl.returnType ≠ CppType.floatT := by decide

/-- C8 amended: `getDefaultLearningRate` is a pure query — declared `const`
with no arguments, so the instance's state is identical before and after
the call — and its result type is double-precision `double`, not
single-precision `float`. -/
theorem getDefaultLearningRate_const_double :
    getDefaultLearningRate_decl.isConst = true ∧
    getDefaultLearningRate_decl.argTypes = [] ∧
    getDefaultLearningRate_decl.returnType = CppType.doubleT := by decide

/-- Embeds `using CreateOptimizerFunc = nntrainer::Optimizer *(*)();`: a
create function takes no arguments and returns one Optimizer instance. -/
def CreateOptimizerFunc (Opt : Type) : Type := Unit → Opt

/-- Embeds `using DestroyOptimizerFunc = void (*)(nntrainer::Optimizer *);`:
a destroy function takes one Optimizer instance and returns nothing. -/
def DestroyOptimizerFunc (Opt : Type) : Type := Opt → Unit

/-- Embeds `struct OptimizerPluggable`: exactly the two fields `createfunc`
and `destroyfunc`. -/
structure OptimizerPluggable (Opt : Type) where
  createfunc : CreateOptimizerFunc Opt
  destroyfunc : DestroyOptimizerFunc Opt

/-- Embeds the fixed exported symbol name of the descriptor,
`extern "C" OptimizerPluggable ml_train_optimizer_pluggable;`. -/
def ml_train_optimizer_pluggable_symbol : List Char :=
  "ml_train_optimizer_pluggable".toList

/-- C4: the plugin descriptor consists of exactly two function pointers —
two descriptors agreeing on `createfunc` and `destroyfunc` are equal, so no
further component exists — where create takes no arguments and returns an
Optimizer instance, destroy takes one instance and returns nothing, and the
descriptor is exposed under the fixed symbol name
`ml_train_optimizer_pluggable`. -/
theorem optimizerPluggable_two_fields (Opt : Type) (p q : OptimizerPluggable Opt)
    (hc : p.createfunc = q.createfunc) (hd : p.destroyfunc = q.destroyfunc) :
    p = q ∧
    CreateOptimizerFunc Opt = (Unit → Opt) ∧
    DestroyOptimizerFunc Opt = (Opt → Unit) ∧
    ml_train_optimizer_pluggable_symbol = "ml_train_optimizer_pluggable".toList := by
  refine ⟨?_, rfl, rfl, rfl⟩
  cases p
  cases q
  simp_all

/-- Witness for C4 at a concrete descriptor over `Nat` instances. -/
theorem optimizerPluggable_two_fields_witness :
    (⟨fun _ => 0, fun _ => ()⟩ : OptimizerPluggable Nat) = ⟨fun _ => 0, fun _ => ()⟩ ∧
    CreateOptimizerFunc Nat = (Unit → Nat) ∧
    DestroyOptimizerFunc Nat = (Nat → Unit) ∧
    ml_train_optimizer_pluggable_symbol = "ml_train_optimizer_pluggable".toList :=
  optimizerPluggable_two_fields Nat ⟨fun _ => 0, fun _ => ()⟩ ⟨fun _ => 0, fun _ => ()⟩
    rfl rfl

/-- Allocation state of the factory: the next fresh instance identifier. -/
structure FactoryState where
  nextId : Nat
  deriving DecidableEq

/-- Observable events of the `createOptimizer` factory template. -/
inductive FactoryEvent
  | createEvent : Nat → FactoryEvent
  | setPropertyEvent : Nat → List String → FactoryEvent
  deriving DecidableEq

/-- Recognizes creation events. -/
def FactoryEvent.isCreate : FactoryEvent → Bool
  | .createEvent _ => true
  | _ => false

/-- What one call of the factory yields: the successor allocation state,
the ordered trace of observable events, and the instance handed back. -/
structure FactoryResult where
  state : FactoryState
  trace : List FactoryEvent
  returned : Nat
  deriving DecidableEq

/-- Embeds the `createOptimizer` factory template from `optimizer_devel.h`
as an event trace: `std::make_unique<T>()` allocates one fresh instance,
`ptr->setProperty(props)` configures it, and the pointer is returned. -/
def createOptimizer (st : FactoryState) (props : List String) : FactoryResult :=
  let ptr := st.nextId
  { state := { nextId := ptr + 1 },
    trace := [FactoryEvent.createEvent ptr, FactoryEvent.setPropertyEvent ptr props],
    returned := ptr }

/-- C5: every `createOptimizer` call produces exactly one new instance (the
trace holds exactly one creation event, for a previously unallocated
identifier), invokes `setProperty` with the supplied property tokens on
that same instance after creating it and before returning, does nothing
else, and hands that configured instance back to the caller. -/
theorem createOptimizer_one_instance (st : FactoryState) (props : List String) :
    ((createOptimizer st props).trace.filter FactoryEvent.isCreate).length = 1 ∧
    (createOptimizer st props).trace =
      [FactoryEvent.createEvent (createOptimizer st props).returned,
       FactoryEvent.setPropertyEvent (createOptimizer st props).returned props] ∧
    (createOptimizer st props).returned = st.nextId ∧
    (createOptimizer st props).state.nextId = st.nextId + 1 :=
  ⟨rfl, rfl, rfl, rfl⟩

end nntrainer
